import Mathlib

/-!
Shallow embedding of the ai-file-processor core (batch planner, per-file
processor, status aggregator) and proofs about the frozen claims.

Conventions of the embedding:
* Python strings are Lean `String`s, except object-store keys manipulated
  character by character in the batch planner, which are `List Char`.
* Python `int` is Lean `Int`; `int(s)` parsing is `pyInt` returning `Option Int`
  (`Option.none` models a raised `ValueError`).
* Python exceptions are modelled with `Except`: a function that can raise
  returns `Except PyExc α`; `try`/`except` becomes a `match` on that value.
* Calls to external services (S3, Step Functions, Bedrock, PIL) are oracle
  parameters carrying the outcome of each call, since their behaviour is not
  part of this repository.
* A Python dict is an association list; `d.get(k)` is `List.lookup`.
-/

/-- Exceptions distinguished by the handlers: `ValueError`, botocore
`ClientError` (carrying an error code and a message), and any other
exception. -/
inductive PyExc where
  | valueError (msg : String)
  | clientError (code : String) (msg : String)
  | other (msg : String)
deriving DecidableEq

/-- Message text of an exception, as produced by Python `str(e)`. -/
def PyExc.message : PyExc → String
  | .valueError m => m
  | .clientError _ m => m
  | .other m => m

/-- Truthiness of an optional string, as used by Python `if x:` on a value
that is either `None` or a string. -/
def pyTruthy : Option String → Bool
  | Option.none => false
  | Option.some s => s ≠ ""

/-- Numeric value of a list of decimal digit characters. -/
def digitsVal (l : List Char) : Nat :=
  l.foldl (fun a c => a * 10 + (c.toNat - 48)) 0

/-- Model of Python `int(s)` on a string: optional surrounding spaces, an
optional sign, then one or more digits; anything else raises `ValueError`
(modelled as `Option.none`). Underscore separators and non-ASCII whitespace
accepted by CPython are irrelevant to the metadata handled here and are not
modelled. -/
def pyIntChars (l : List Char) : Option Int :=
  let l := l.dropWhile (fun c => c = ' ')
  let l := (l.reverse.dropWhile (fun c => c = ' ')).reverse
  match l with
  | '+' :: rest =>
    if rest ≠ [] ∧ rest.all Char.isDigit then Option.some (digitsVal rest) else Option.none
  | '-' :: rest =>
    if rest ≠ [] ∧ rest.all Char.isDigit then Option.some (-(digitsVal rest : Int)) else Option.none
  | rest =>
    if rest ≠ [] ∧ rest.all Char.isDigit then Option.some (digitsVal rest) else Option.none

/-- Model of Python `int(s)` on a `String`. -/
def pyInt (s : String) : Option Int :=
  pyIntChars s.data

/-!
## Status Aggregator (src/status/handler.py)
-/

/-- One object returned by the aggregator listing (`list_objects_v2`,
src/status/handler.py lines 49-64): its key, the result of the `head_object`
call for it (the string-valued metadata map, or an exception), and its body.
The body is carried only to state that aggregation never reads it. -/
structure ScanObj where
  key : String
  head : Except Unit (List (String × String))
  body : String

/-- Running totals of the aggregation loop, src/status/handler.py
lines 40-44. -/
structure ScanTotals where
  inputTokens : Int := 0
  outputTokens : Int := 0
  totalTokens : Int := 0
  successfulFiles : Int := 0
  failedFiles : Int := 0
deriving DecidableEq

/-- Model of Python `s.endswith(p)`: `p` is a suffix of `s`. -/
def strEndsWith (s p : String) : Bool :=
  p.data.isSuffixOf s.data

/-- Key filter of the scan loop, src/status/handler.py line 56: keys ending
in `.json` are scanned except those ending in `_status.json`. -/
def scanCondition (key : String) : Bool :=
  strEndsWith key ".json" && !(strEndsWith key "_status.json")

/-- Model of `metadata.get(name, 0)` followed by `int(...)`
(src/status/handler.py lines 67-69): an absent field is the integer `0`;
a present field is parsed with Python `int`, `Option.none` modelling the
raised `ValueError`. -/
def parseTokenField (m : List (String × String)) (name : String) : Option Int :=
  match m.lookup name with
  | Option.none => Option.some 0
  | Option.some s => pyInt s

/-- One iteration of the aggregation loop, src/status/handler.py lines 55-78.
The per-object `try` is modelled by stopping this object's contributions at
the first failing step while keeping the increments already applied, exactly
as the sequential `+=` statements behave under the caught exception. -/
def objStep (acc : ScanTotals) (o : ScanObj) : ScanTotals :=
  if scanCondition o.key then
    match o.head with
    | .error _ => acc
    | .ok m =>
      match parseTokenField m "input-tokens" with
      | Option.none => acc
      | Option.some i =>
        let acc := { acc with inputTokens := acc.inputTokens + i }
        match parseTokenField m "output-tokens" with
        | Option.none => acc
        | Option.some o2 =>
          let acc := { acc with outputTokens := acc.outputTokens + o2 }
          match parseTokenField m "total-tokens" with
          | Option.none => acc
          | Option.some t =>
            let acc := { acc with totalTokens := acc.totalTokens + t }
            if m.lookup "processing-status" = Option.some "success" then
              { acc with successfulFiles := acc.successfulFiles + 1 }
            else if m.lookup "processing-status" = Option.some "error" then
              { acc with failedFiles := acc.failedFiles + 1 }
            else acc
  else acc

/-- The aggregation scan over a listing, src/status/handler.py lines 54-78. -/
def scanTotals (objs : List ScanObj) : ScanTotals :=
  objs.foldl objStep {}

/-- Result of the `list_objects_v2` call for the aggregator: an exception,
a response with no `Contents`, or the listed objects. -/
def ScanOracle : Type :=
  Except Unit (Option (List ScanObj))

/-- Totals actually accumulated given the listing outcome: a listing failure
is caught by the outer `try` (src/status/handler.py lines 47, 83-84) and a
response without `Contents` skips the loop (line 54); both leave the
zero-initialised totals. -/
def scanTotalsOf (scan : ScanOracle) : ScanTotals :=
  match scan with
  | .error _ => {}
  | .ok Option.none => {}
  | .ok (Option.some objs) => scanTotals objs

/-- Completion signal consumed by the aggregator
(src/status/handler.py lines 23-27). -/
structure CompletionEvent where
  directory_path : String
  status : String
  message : String
  execution_arn : Option String
  error : Option String

/-- The fields of the previously stored status record that the aggregator
reads back (src/status/handler.py lines 90-91); a field may be absent, and a
failed read leaves the empty record. -/
structure CurrentStatus where
  total_files : Option Int
  completed_files : Option Int

/-- Token-usage block of a status record
(src/status/handler.py lines 103-107). -/
structure TokenUsage where
  input_tokens : Int
  output_tokens : Int
  total_tokens : Int
deriving DecidableEq

/-- Status record written by the aggregator
(src/status/handler.py lines 87-113); optional JSON fields are `Option`. -/
structure StatusData where
  status : String
  message : String
  total_files : Int
  completed_files : Int
  timestamp : String
  directory_path : String
  successful_files : Option Int
  failed_files : Option Int
  token_usage : Option TokenUsage
  execution_arn : Option String
  error : Option String
deriving DecidableEq

/-- The status record assembled by the aggregator,
src/status/handler.py lines 39-113: totals are aggregated only when the
signalled status is `completed` (line 46); `total_files` is preserved from
the current record with default 0; `completed_files` is set to `total_files`
exactly on `completed`; `successful_files`/`failed_files` are attached only
when at least one artifact was counted, and `token_usage` only when
additionally the summed total is positive; `execution_arn` and `error` are
attached when truthy. -/
def statusUpdateData (ev : CompletionEvent) (cur : CurrentStatus)
    (scan : ScanOracle) (now : String) : StatusData :=
  let t := if ev.status = "completed" then scanTotalsOf scan else {}
  { status := ev.status
    message := ev.message
    total_files := cur.total_files.getD 0
    completed_files :=
      if ev.status = "completed" then cur.total_files.getD 0
      else cur.completed_files.getD 0
    timestamp := now
    directory_path := ev.directory_path
    successful_files :=
      if ev.status = "completed" ∧ (t.successfulFiles > 0 ∨ t.failedFiles > 0) then
        Option.some t.successfulFiles
      else Option.none
    failed_files :=
      if ev.status = "completed" ∧ (t.successfulFiles > 0 ∨ t.failedFiles > 0) then
        Option.some t.failedFiles
      else Option.none
    token_usage :=
      if ev.status = "completed" ∧ (t.successfulFiles > 0 ∨ t.failedFiles > 0)
          ∧ t.totalTokens > 0 then
        Option.some ⟨t.inputTokens, t.outputTokens, t.totalTokens⟩
      else Option.none
    execution_arn := if pyTruthy ev.execution_arn then ev.execution_arn else Option.none
    error := if pyTruthy ev.error then ev.error else Option.none }

/-- Reading back a status record previously written by the aggregator:
both counters are present (src/status/handler.py lines 34-35, 90-91). -/
def statusToCurrent (sd : StatusData) : CurrentStatus :=
  ⟨Option.some sd.total_files, Option.some sd.completed_files⟩

/-- Result returned by a Lambda entry point. -/
structure LambdaResult where
  statusCode : Int
  body : String
deriving DecidableEq

/-- Full aggregator entry point, src/status/handler.py lines 14-138: the
environment check, the current-status read with fallback to the empty record,
the record assembly, and the final write whose failure is caught and turned
into a 500 result. -/
def statusLambdaHandler (outputBucket : Option String) (ev : CompletionEvent)
    (curRead : Except Unit CurrentStatus) (scan : ScanOracle)
    (putOutcome : Except Unit Unit) (now : String) :
    LambdaResult × Option StatusData :=
  if !pyTruthy outputBucket then (⟨500, "Configuration error"⟩, Option.none)
  else
    let cur : CurrentStatus :=
      match curRead with
      | .error _ => ⟨Option.none, Option.none⟩
      | .ok c => c
    let sd := statusUpdateData ev cur scan now
    match putOutcome with
    | .error _ => (⟨500, "error"⟩, Option.none)
    | .ok _ => (⟨200, "Status updated to " ++ ev.status⟩, Option.some sd)

/-!
## Helper lemmas about the aggregation loop
-/

/-- An object whose key fails the scan filter leaves the totals unchanged. -/
theorem objStep_eq_self_of_not_scanned (acc : ScanTotals) (o : ScanObj)
    (h : scanCondition o.key = false) : objStep acc o = acc := by
  simp [objStep, h]

/-- An object whose metadata read failed leaves the totals unchanged. -/
theorem objStep_eq_self_of_head_error (acc : ScanTotals) (o : ScanObj) (e : Unit)
    (h : o.head = .error e) : objStep acc o = acc := by
  by_cases hk : scanCondition o.key <;> simp [objStep, h, hk]

/-- An object with an empty metadata map contributes nothing: every token
field defaults to 0 and no processing status is counted. -/
theorem objStep_eq_self_of_empty_metadata (acc : ScanTotals) (o : ScanObj)
    (h : o.head = .ok []) : objStep acc o = acc := by
  by_cases hk : scanCondition o.key <;> simp [objStep, h, hk, parseTokenField]

/-- An object whose `input-tokens` metadata is present but fails integer
parsing contributes nothing at all: the exception aborts that object before
any increment, including the success/failure count. -/
theorem objStep_eq_self_of_malformed_input (acc : ScanTotals) (o : ScanObj)
    (m : List (String × String)) (s : String) (hm : o.head = .ok m)
    (hs : m.lookup "input-tokens" = Option.some s) (hp : pyInt s = Option.none) :
    objStep acc o = acc := by
  by_cases hk : scanCondition o.key <;> simp [objStep, hm, hk, parseTokenField, hs, hp]

/-- Changing an object's body never changes a step of the scan: only the key
and the metadata are consulted. -/
theorem objStep_body_irrelevant (acc : ScanTotals) (o : ScanObj) (b : String) :
    objStep acc { o with body := b } = objStep acc o := rfl

/-- Removing from the listing an object that contributes nothing leaves the
scan totals unchanged. -/
theorem scanTotals_middle (o : ScanObj) (l1 l2 : List ScanObj)
    (h : ∀ acc, objStep acc o = acc) :
    scanTotals (l1 ++ o :: l2) = scanTotals (l1 ++ l2) := by
  unfold scanTotals
  rw [List.foldl_append, List.foldl_append, List.foldl_cons, h]

/-!
## Concrete fixtures used by witnesses and counterexamples
-/

/-- A well-formed success artifact with 10 input and 5 output tokens. -/
def artifactSuccess : ScanObj :=
  ⟨"d/a.png.json",
   .ok [("record-id", "d-a-png"), ("processing-status", "success"),
        ("input-tokens", "10"), ("output-tokens", "5"), ("total-tokens", "15")], ""⟩

/-- An artifact whose `output-tokens` metadata fails integer parsing while
its `input-tokens` parses. -/
def artifactPartial : ScanObj :=
  ⟨"d/b.png.json",
   .ok [("processing-status", "success"), ("input-tokens", "5"),
        ("output-tokens", "x"), ("total-tokens", "7")], ""⟩

/-- An artifact whose `total-tokens` metadata is unrelated to the sum of its
`input-tokens` and `output-tokens`. -/
def artifactSkewed : ScanObj :=
  ⟨"d/c.png.json",
   .ok [("processing-status", "success"), ("input-tokens", "1"),
        ("output-tokens", "1"), ("total-tokens", "100")], ""⟩

/-- An artifact whose `input-tokens` metadata fails integer parsing. -/
def artifactBadInput : ScanObj :=
  ⟨"d/e.png.json", .ok [("processing-status", "success"), ("input-tokens", "x")], ""⟩

/-- An object at the work-manifest key, carrying metadata, to probe the scan
filter. -/
def manifestObj : ScanObj :=
  ⟨"d/_batch_input.json",
   .ok [("processing-status", "success"), ("input-tokens", "1"),
        ("output-tokens", "0"), ("total-tokens", "1")], ""⟩

/-- An object at the status-record key. -/
def statusObj : ScanObj :=
  ⟨"d/_status.json",
   .ok [("processing-status", "success"), ("input-tokens", "1"),
        ("output-tokens", "0"), ("total-tokens", "1")], ""⟩

/-- A completion signal with terminal status `completed`. -/
def evCompleted : CompletionEvent :=
  ⟨"d/", "completed", "Batch processing completed", Option.none, Option.none⟩

/-- A completion signal with terminal status `error`. -/
def evError : CompletionEvent :=
  ⟨"d/", "error", "Batch processing failed", Option.none, Option.none⟩

/-- A current status record as the planner leaves it for two files. -/
def curPlanner : CurrentStatus := ⟨Option.some 2, Option.some 0⟩

/-!
## Claims about the Status Aggregator
-/

/-- C8: re-running the aggregator with the same completion signal over an
unchanged artifact listing, reading back the record the first run wrote,
produces a status record identical to the first in every field except the
timestamp. -/
theorem aggregator_idempotent (ev : CompletionEvent) (cur : CurrentStatus)
    (scan : ScanOracle) (t1 t2 : String) :
    statusUpdateData ev (statusToCurrent (statusUpdateData ev cur scan t1)) scan t2
      = { statusUpdateData ev cur scan t1 with timestamp := t2 } := by
  by_cases h : ev.status = "completed" <;>
    simp [statusUpdateData, statusToCurrent, h]

/-- C2 (amended): the aggregator rescans the artifacts and tallies
successful/failed files and token usage into the written record only when
the completion signal's status is `completed`; on any other signal,
including the terminal status `error`, no tallies are recorded. -/
theorem aggregator_tallies_only_on_completed (ev : CompletionEvent)
    (cur : CurrentStatus) (L : List ScanObj) (now : String)
    (hc : ev.status = "completed") :
    ((statusUpdateData ev cur (.ok (Option.some L)) now).successful_files
        = (if (scanTotals L).successfulFiles > 0 ∨ (scanTotals L).failedFiles > 0 then
            Option.some (scanTotals L).successfulFiles else Option.none)
      ∧ (statusUpdateData ev cur (.ok (Option.some L)) now).failed_files
        = (if (scanTotals L).successfulFiles > 0 ∨ (scanTotals L).failedFiles > 0 then
            Option.some (scanTotals L).failedFiles else Option.none)
      ∧ (statusUpdateData ev cur (.ok (Option.some L)) now).token_usage
        = (if ((scanTotals L).successfulFiles > 0 ∨ (scanTotals L).failedFiles > 0)
              ∧ (scanTotals L).totalTokens > 0 then
            Option.some ⟨(scanTotals L).inputTokens, (scanTotals L).outputTokens,
              (scanTotals L).totalTokens⟩
          else Option.none))
    ∧ ∀ (ev2 : CompletionEvent) (cur2 : CurrentStatus) (scan2 : ScanOracle)
        (now2 : String), ev2.status ≠ "completed" →
        (statusUpdateData ev2 cur2 scan2 now2).successful_files = Option.none
        ∧ (statusUpdateData ev2 cur2 scan2 now2).failed_files = Option.none
        ∧ (statusUpdateData ev2 cur2 scan2 now2).token_usage = Option.none := by
  constructor
  · simp [statusUpdateData, scanTotalsOf, hc]
  · intro ev2 cur2 scan2 now2 h2
    simp [statusUpdateData, h2]

/-- Witness for `aggregator_tallies_only_on_completed` at a concrete
completed signal over one success artifact. -/
theorem aggregator_tallies_witness :
    (statusUpdateData evCompleted curPlanner (.ok (Option.some [artifactSuccess])) "t").successful_files
      = (if (scanTotals [artifactSuccess]).successfulFiles > 0
            ∨ (scanTotals [artifactSuccess]).failedFiles > 0 then
          Option.some (scanTotals [artifactSuccess]).successfulFiles else Option.none)
    ∧ (statusUpdateData evCompleted curPlanner (.ok (Option.some [artifactSuccess])) "t").failed_files
      = (if (scanTotals [artifactSuccess]).successfulFiles > 0
            ∨ (scanTotals [artifactSuccess]).failedFiles > 0 then
          Option.some (scanTotals [artifactSuccess]).failedFiles else Option.none)
    ∧ (statusUpdateData evCompleted curPlanner (.ok (Option.some [artifactSuccess])) "t").token_usage
      = (if ((scanTotals [artifactSuccess]).successfulFiles > 0
              ∨ (scanTotals [artifactSuccess]).failedFiles > 0)
            ∧ (scanTotals [artifactSuccess]).totalTokens > 0 then
          Option.some ⟨(scanTotals [artifactSuccess]).inputTokens,
            (scanTotals [artifactSuccess]).outputTokens,
            (scanTotals [artifactSuccess]).totalTokens⟩
        else Option.none) :=
  (aggregator_tallies_only_on_completed evCompleted curPlanner [artifactSuccess] "t" rfl).1

/-- Counterexample to C2 as stated: on a terminal `error` signal the
aggregator does not rescan; the written record carries no tallies even
though the artifact listing holds one tallied success artifact. -/
theorem aggregator_error_signal_no_tally :
    (statusUpdateData evError curPlanner (.ok (Option.some [artifactSuccess])) "t").successful_files
      = Option.none
    ∧ (statusUpdateData evError curPlanner (.ok (Option.some [artifactSuccess])) "t").failed_files
      = Option.none
    ∧ (statusUpdateData evError curPlanner (.ok (Option.some [artifactSuccess])) "t").token_usage
      = Option.none
    ∧ (scanTotals [artifactSuccess]).successfulFiles = 1
    ∧ (scanTotals [artifactSuccess]).totalTokens = 15 := by
  decide

/-- C7 (amended): when a completed-status record carries `token_usage`, its
fields are the sums of the artifacts' own `input-tokens`, `output-tokens`
and `total-tokens` metadata values as accumulated by the scan (not the sum
of input and output), and the summed total is positive. -/
theorem token_usage_total_from_metadata (ev : CompletionEvent)
    (cur : CurrentStatus) (L : List ScanObj) (now : String) (u : TokenUsage)
    (hc : ev.status = "completed")
    (hu : (statusUpdateData ev cur (.ok (Option.some L)) now).token_usage = Option.some u) :
    u.input_tokens = (scanTotals L).inputTokens
    ∧ u.output_tokens = (scanTotals L).outputTokens
    ∧ u.total_tokens = (scanTotals L).totalTokens
    ∧ (scanTotals L).totalTokens > 0 := by
  by_cases h : ((scanTotals L).successfulFiles > 0 ∨ (scanTotals L).failedFiles > 0)
      ∧ (scanTotals L).totalTokens > 0
  · simp [statusUpdateData, scanTotalsOf, hc, h] at hu
    subst hu
    exact ⟨rfl, rfl, rfl, h.2⟩
  · simp [statusUpdateData, scanTotalsOf, hc, h] at hu

/-- Witness for `token_usage_total_from_metadata` at one success artifact. -/
theorem token_usage_total_witness :
    (⟨10, 5, 15⟩ : TokenUsage).input_tokens = (scanTotals [artifactSuccess]).inputTokens
    ∧ (⟨10, 5, 15⟩ : TokenUsage).output_tokens = (scanTotals [artifactSuccess]).outputTokens
    ∧ (⟨10, 5, 15⟩ : TokenUsage).total_tokens = (scanTotals [artifactSuccess]).totalTokens
    ∧ (scanTotals [artifactSuccess]).totalTokens > 0 :=
  token_usage_total_from_metadata evCompleted curPlanner [artifactSuccess] "t"
    ⟨10, 5, 15⟩ rfl (by decide)

/-- Counterexample to C7 as stated: an artifact whose `total-tokens`
metadata is 100 while its input and output token counts are 1 each yields a
record whose `token_usage.total_tokens` is 100, not the sum 2 of the input
and output sums. -/
theorem token_usage_total_mismatch_example :
    (statusUpdateData evCompleted curPlanner (.ok (Option.some [artifactSkewed])) "t").token_usage
      = Option.some ⟨1, 1, 100⟩
    ∧ ¬((1 : Int) + 1 = 100) := by
  decide

/-- C6 (amended): an artifact whose `input-tokens` metadata fails integer
parsing contributes nothing to any total or count, and the remaining
artifacts are aggregated exactly as if it were absent. -/
theorem malformed_token_artifact_skipped (o : ScanObj) (l1 l2 : List ScanObj)
    (m : List (String × String)) (s : String) (hm : o.head = .ok m)
    (hs : m.lookup "input-tokens" = Option.some s) (hp : pyInt s = Option.none) :
    scanTotals (l1 ++ o :: l2) = scanTotals (l1 ++ l2) :=
  scanTotals_middle o l1 l2
    (fun acc => objStep_eq_self_of_malformed_input acc o m s hm hs hp)

/-- Witness for `malformed_token_artifact_skipped` at a concrete listing. -/
theorem malformed_token_artifact_witness :
    scanTotals [artifactSuccess, artifactBadInput] = scanTotals [artifactSuccess] :=
  malformed_token_artifact_skipped artifactBadInput [artifactSuccess] []
    [("processing-status", "success"), ("input-tokens", "x")] "x" rfl (by decide) (by decide)

/-- Counterexample to C6 as stated: an artifact whose `output-tokens` fails
parsing has already added its parsed `input-tokens` before the exception, so
it contributes 5 input tokens rather than 0 to the aggregate. -/
theorem partial_token_contribution_example :
    (scanTotals [artifactPartial, artifactSuccess]).inputTokens = 15
    ∧ (scanTotals [artifactSuccess]).inputTokens = 10
    ∧ ¬((scanTotals [artifactPartial, artifactSuccess]).inputTokens
        = (scanTotals [artifactSuccess]).inputTokens)
    ∧ (scanTotals [artifactPartial, artifactSuccess]).outputTokens = 5
    ∧ (scanTotals [artifactPartial, artifactSuccess]).successfulFiles = 1 := by
  decide

/-- C9 (amended): the scan skips exactly the objects failing the key filter
(non-`.json` keys and keys ending `_status.json`); an object with no
metadata, such as the work manifest, contributes nothing; and the totals
never depend on any object's body. -/
theorem scan_reads_only_metadata_and_excludes_status :
    (∀ (o : ScanObj) (l1 l2 : List ScanObj), scanCondition o.key = false →
        scanTotals (l1 ++ o :: l2) = scanTotals (l1 ++ l2))
    ∧ (∀ (o : ScanObj) (l1 l2 : List ScanObj), o.head = .ok [] →
        scanTotals (l1 ++ o :: l2) = scanTotals (l1 ++ l2))
    ∧ (∀ (L : List ScanObj) (f : ScanObj → String),
        scanTotals (L.map fun o => { o with body := f o }) = scanTotals L) := by
  refine ⟨?_, ?_, ?_⟩
  · intro o l1 l2 h
    exact scanTotals_middle o l1 l2 (fun acc => objStep_eq_self_of_not_scanned acc o h)
  · intro o l1 l2 h
    exact scanTotals_middle o l1 l2 (fun acc => objStep_eq_self_of_empty_metadata acc o h)
  · intro L f
    suffices h : ∀ acc, (L.map fun o => { o with body := f o }).foldl objStep acc
        = L.foldl objStep acc by
      exact h {}
    induction L with
    | nil => intro acc; rfl
    | cons o rest ih =>
      intro acc
      simpa [objStep_body_irrelevant] using ih (objStep acc o)

/-- Witness for `scan_reads_only_metadata_and_excludes_status`: the
status-record key is excluded from a concrete scan. -/
theorem scan_exclusion_witness :
    scanTotals [statusObj] = scanTotals [] :=
  scan_reads_only_metadata_and_excludes_status.1 statusObj [] [] (by decide)

/-- Counterexample to C9 as stated: the work-manifest key passes the scan
filter (it ends in `.json` and not `_status.json`), so the scan does not
exclude it; were it to carry processing metadata it would even be tallied. -/
theorem manifest_key_scanned_example :
    scanCondition "d/_batch_input.json" = true
    ∧ scanCondition "d/_status.json" = false
    ∧ (scanTotals [manifestObj]).successfulFiles = 1
    ∧ (scanTotals []).successfulFiles = 0 := by
  decide

/-!
## Batch Planner (src/trigger/handler.py)

Object-store keys handled by the planner are modelled as `List Char`, since
the planner transforms them character by character.
-/

/-- Model of Python `key.endswith(p)` on character lists. -/
def endsWithL (k p : List Char) : Bool :=
  p.isSuffixOf k

/-- First `replace` of `create_processing_record`
(src/trigger/handler.py line 152): every path separator becomes a dash. -/
def sub1 (c : Char) : Char :=
  if c = '/' then '-' else c

/-- Second `replace` of `create_processing_record`
(src/trigger/handler.py line 152): every dot becomes a dash. -/
def sub2 (c : Char) : Char :=
  if c = '.' then '-' else c

/-- Record-id derivation, src/trigger/handler.py line 152:
`file_key.replace("/", "-").replace(".", "-")`. A `str.replace` whose
pattern and replacement are single characters is a character-wise map. -/
def recordId (k : List Char) : List Char :=
  (k.map sub1).map sub2

/-- Model of Python `os.path.splitext(key)[1]`: the extension starts at the
last dot of the basename, unless every character of the basename before that
dot is itself a dot (leading-dot names have no extension). -/
def splitextExt (k : List Char) : List Char :=
  let base := (k.reverse.takeWhile (fun c => c ≠ '/')).reverse
  let rb := base.reverse
  let afterDot := rb.takeWhile (fun c => c ≠ '.')
  if afterDot.length = rb.length then []
  else
    let beforeDot := rb.drop (afterDot.length + 1)
    if beforeDot.all (fun c => c = '.') then []
    else '.' :: afterDot.reverse

/-- Supported extensions, src/trigger/handler.py line 17. -/
def SUPPORTED_EXTENSIONS : List (List Char) :=
  [".png".data, ".jpg".data, ".jpeg".data]

/-- The filter of `list_files_in_directory`, src/trigger/handler.py
lines 114-127: keys ending in `prompt.json`, `.json` or `/` are skipped, and
the lowered extension must be on the supported list. -/
def keepKey (key : List Char) : Bool :=
  if endsWithL key "prompt.json".data || endsWithL key ".json".data
      || endsWithL key "/".data then
    false
  else
    SUPPORTED_EXTENSIONS.contains ((splitextExt key).map Char.toLower)

/-- One object of the planner listing. -/
structure ObjInfo where
  key : List Char
  size : Int

/-- One processable file as collected by `list_files_in_directory`,
src/trigger/handler.py lines 131-138; `format` is the lowered extension
without its dot and `content_type` is the constant `"image"`
(src/trigger/handler.py lines 146-148). -/
structure FileInfo where
  key : List Char
  format : List Char
  content_type : String
  size : Int
deriving DecidableEq

/-- Model of `list_files_in_directory`, src/trigger/handler.py lines 106-143:
a listing exception is caught and yields the files collected so far (none);
a response without `Contents` raises `KeyError` inside the same `try` with
the same effect; otherwise the keys are filtered and described. -/
def list_files_in_directory (listResult : Except PyExc (Option (List ObjInfo))) :
    List FileInfo :=
  match listResult with
  | .error _ => []
  | .ok Option.none => []
  | .ok (Option.some objs) =>
    objs.filterMap fun o =>
      if keepKey o.key then
        Option.some ⟨o.key, ((splitextExt o.key).map Char.toLower).drop 1, "image", o.size⟩
      else Option.none

/-- One work record of the batch manifest, src/trigger/handler.py
lines 154-161. -/
structure BatchRecord where
  recordId : List Char
  file_key : List Char
  bucket : String
  prompt : String
  file_format : List Char
  content_type : String
deriving DecidableEq

/-- Model of `create_processing_record`, src/trigger/handler.py
lines 151-161; `prompt_config["prompt"]` raises `KeyError` when absent. -/
def create_processing_record (f : FileInfo) (promptConfig : List (String × String))
    (bucket : String) : Except PyExc BatchRecord :=
  match promptConfig.lookup "prompt" with
  | Option.none => .error (.other "KeyError: prompt")
  | Option.some p =>
    .ok ⟨recordId f.key, f.key, bucket, p, f.format, f.content_type⟩

/-- Model of `create_batch_records`, src/trigger/handler.py lines 164-174:
a failing record is logged and skipped. -/
def create_batch_records (files : List FileInfo) (promptConfig : List (String × String))
    (bucket : String) : List BatchRecord :=
  files.filterMap fun f =>
    match create_processing_record f promptConfig bucket with
    | .ok r => Option.some r
    | .error _ => Option.none

/-- Model of `"/".join(key.split("/")[:-1])` plus the trailing separator,
src/trigger/handler.py lines 49-51: everything up to and including the last
slash, or empty when the key has no slash. -/
def dirPathOf (k : List Char) : List Char :=
  let tail := k.reverse.takeWhile (fun c => c ≠ '/')
  if tail.length = k.length then []
  else (k.take (k.length - tail.length - 1)) ++ ['/']

/-- Payload of `create_status_file`, src/trigger/handler.py lines 177-191;
`execution_arn` is attached only when truthy. -/
structure StatusFileData where
  status : String
  message : String
  total_files : Int
  completed_files : Int
  timestamp : String
  directory_path : List Char
  execution_arn : Option String
deriving DecidableEq

/-- Builder of the planner status payload, src/trigger/handler.py
lines 177-191. -/
def create_status_file_data (directory_path : List Char) (status message : String)
    (total_files completed_files : Int) (execution_arn : Option String)
    (now : String) : StatusFileData :=
  { status := status
    message := message
    total_files := total_files
    completed_files := completed_files
    timestamp := now
    directory_path := directory_path
    execution_arn := if pyTruthy execution_arn then execution_arn else Option.none }

/-- One record of the upload event consumed by the planner,
src/trigger/handler.py lines 31-33. -/
structure TriggerRecord where
  bucket : String
  key : List Char
deriving DecidableEq

/-- Outcomes of the external calls made while processing one upload record:
the prompt-configuration fetch (get, read, decode and `json.loads` fused,
yielding the parsed configuration whose values relevant here are strings),
the directory listing, the manifest write, and the Step Functions start. -/
structure RecordWorld where
  fetchConfig : Except PyExc (List (String × String))
  listObjects : Except PyExc (Option (List ObjInfo))
  putBatchOutcome : Except PyExc Unit
  startExecution : Except PyExc String

/-- Error-status payload written by the planner's per-record exception
handler, src/trigger/handler.py lines 92-101; the handler recomputes the
directory path and the write is itself best-effort. -/
def plannerErrorStatus (key : List Char) (emsg : String) (now : String) :
    StatusFileData :=
  create_status_file_data (dirPathOf key) "error" ("Processing failed: " ++ emsg)
    0 0 Option.none now

/-- Processing of one upload record, src/trigger/handler.py lines 31-101:
the body of the per-record `try` together with its `except` handler. The
status payloads built by the record are returned; every branch, success or
failure, builds exactly one. -/
def process_record (r : TriggerRecord) (w : RecordWorld) (now : String) :
    List StatusFileData :=
  match w.fetchConfig with
  | .error e => [plannerErrorStatus r.key e.message now]
  | .ok promptConfig =>
    match promptConfig.lookup "prompt" with
    | Option.none => [plannerErrorStatus r.key "Missing required field: prompt" now]
    | Option.some _ =>
      let directory_path := dirPathOf r.key
      let files := list_files_in_directory w.listObjects
      if files.isEmpty then
        [create_status_file_data directory_path "error" "No processable files found"
          0 0 Option.none now]
      else
        match w.putBatchOutcome with
        | .error e => [plannerErrorStatus r.key e.message now]
        | .ok _ =>
          match w.startExecution with
          | .error e => [plannerErrorStatus r.key e.message now]
          | .ok arn =>
            [create_status_file_data directory_path "in_progress"
              ("Processing " ++ toString files.length ++ " files")
              (files.length : Int) 0 (Option.some arn) now]

/-- Planner entry point, src/trigger/handler.py lines 20-103: after the
environment checks, every record is processed with all exceptions swallowed,
and the handler returns 200/success unconditionally. -/
def trigger_lambda_handler (outputBucket stateMachineArn : Option String)
    (eventRecords : List (TriggerRecord × RecordWorld)) (now : String) :
    LambdaResult × List StatusFileData :=
  if !pyTruthy outputBucket then (⟨500, "Configuration error"⟩, [])
  else if !pyTruthy stateMachineArn then (⟨500, "Configuration error"⟩, [])
  else
    (⟨200, "success"⟩,
     (eventRecords.map fun rw => process_record rw.1 rw.2 now).flatten)

/-!
## Claims about the Batch Planner
-/

/-- A key segment free of the separator characters the derivation collapses
and of the dash they are collapsed to. -/
def sepFree (l : List Char) : Prop :=
  ∀ c ∈ l, c ≠ '/' ∧ c ≠ '.' ∧ c ≠ '-'

instance (l : List Char) : Decidable (sepFree l) := by
  unfold sepFree; infer_instance

/-- The two successive replaces of the record-id derivation compose to one
character-wise substitution. -/
theorem recordId_eq_map (k : List Char) :
    recordId k = k.map (fun c => sub2 (sub1 c)) := by
  simp [recordId, List.map_map]

/-- The substitution is the identity on a separator-free segment. -/
theorem map_subs_of_sepFree (l : List Char) (h : sepFree l) :
    l.map (fun c => sub2 (sub1 c)) = l := by
  induction l with
  | nil => rfl
  | cons c t ih =>
    have hc := h c (by simp)
    have ht : sepFree t := fun x hx => h x (by simp [hx])
    have hcc : sub2 (sub1 c) = c := by simp [sub1, sub2, hc.1, hc.2.1]
    simp [hcc, ih ht]

/-- Splitting a list at a dash-marked position is unambiguous when neither
side of the marker contains a dash. -/
theorem append_dash_inj (a : List Char) : ∀ (b s t : List Char),
    (∀ c ∈ a, c ≠ '-') → (∀ c ∈ b, c ≠ '-') →
    a ++ '-' :: s = b ++ '-' :: t → a = b ∧ s = t := by
  induction a with
  | nil =>
    intro b s t _ hb h
    cases b with
    | nil => simpa using h
    | cons c bt =>
      simp at h
      exact absurd h.1.symm (hb c (by simp))
  | cons c at' ih =>
    intro b s t ha hb h
    cases b with
    | nil =>
      simp at h
      exact absurd h.1 (ha c (by simp))
    | cons c2 bt =>
      simp at h
      obtain ⟨h1, h2⟩ := h
      have hr := ih bt s t (fun x hx => ha x (by simp [hx]))
        (fun x hx => hb x (by simp [hx])) h2
      exact ⟨by simp [h1, hr.1], hr.2⟩

/-- The record id of a single-level key with separator-free segments keeps
the dashes exactly at the two separator positions. -/
theorem recordId_of_segments (d n e : List Char) (hd : sepFree d)
    (hn : sepFree n) (he : sepFree e) :
    recordId (d ++ '/' :: (n ++ '.' :: e)) = d ++ '-' :: (n ++ '-' :: e) := by
  rw [recordId_eq_map]
  simp only [List.map_append, List.map_cons]
  rw [map_subs_of_sepFree d hd, map_subs_of_sepFree n hn, map_subs_of_sepFree e he]
  rfl

/-- C1 (amended): the record-id derivation is injective over single-level
file keys `dir/name.ext` whose three segments contain none of the collapsed
separators and no dash; in general distinct keys may collide, as the
derivation maps both separators to the same character. -/
theorem recordId_injective_on_separator_free_keys
    (d1 n1 e1 d2 n2 e2 : List Char)
    (hd1 : sepFree d1) (hn1 : sepFree n1) (he1 : sepFree e1)
    (hd2 : sepFree d2) (hn2 : sepFree n2) (he2 : sepFree e2)
    (h : recordId (d1 ++ '/' :: (n1 ++ '.' :: e1))
        = recordId (d2 ++ '/' :: (n2 ++ '.' :: e2))) :
    d1 ++ '/' :: (n1 ++ '.' :: e1) = d2 ++ '/' :: (n2 ++ '.' :: e2) := by
  rw [recordId_of_segments d1 n1 e1 hd1 hn1 he1,
    recordId_of_segments d2 n2 e2 hd2 hn2 he2] at h
  obtain ⟨hdd, hrest⟩ := append_dash_inj d1 d2 (n1 ++ '-' :: e1) (n2 ++ '-' :: e2)
    (fun c hc => (hd1 c hc).2.2) (fun c hc => (hd2 c hc).2.2) h
  obtain ⟨hnn, hee⟩ := append_dash_inj n1 n2 e1 e2
    (fun c hc => (hn1 c hc).2.2) (fun c hc => (hn2 c hc).2.2) hrest
  rw [hdd, hnn, hee]

/-- Witness for `recordId_injective_on_separator_free_keys` at a concrete
single-level key. -/
theorem recordId_injective_witness :
    "ab".data ++ '/' :: ("c".data ++ '.' :: "png".data)
      = "ab".data ++ '/' :: ("c".data ++ '.' :: "png".data) :=
  recordId_injective_on_separator_free_keys "ab".data "c".data "png".data
    "ab".data "c".data "png".data (by decide) (by decide) (by decide)
    (by decide) (by decide) (by decide) rfl

/-- Counterexample to C1 as stated: the distinct processable keys `a/b.png`
and `a.b.png` collide, since both separators are replaced by the same
character. -/
theorem recordId_collision_example :
    "a/b.png".data ≠ "a.b.png".data
    ∧ keepKey "a/b.png".data = true
    ∧ keepKey "a.b.png".data = true
    ∧ recordId "a/b.png".data = recordId "a.b.png".data := by
  decide

/-- C10: with both required environment variables set, the planner entry
point returns status 200 with body `success` whatever the upload records and
however their processing fares. -/
theorem trigger_always_returns_success (ob sm : Option String)
    (eventRecords : List (TriggerRecord × RecordWorld)) (now : String)
    (hob : pyTruthy ob = true) (hsm : pyTruthy sm = true) :
    (trigger_lambda_handler ob sm eventRecords now).1 = ⟨200, "success"⟩ := by
  simp [trigger_lambda_handler, hob, hsm]

/-- An upload record whose every external call fails. -/
def trigFailWorld : RecordWorld :=
  ⟨.error (.other "S3 access denied"), .error (.other "list failed"),
   .error (.other "put failed"), .error (.other "start failed")⟩

/-- The upload record for a prompt configuration at `d/_prompt.json`. -/
def trigRecord0 : TriggerRecord :=
  ⟨"input-bucket", "d/_prompt.json".data⟩

/-- Witness for `trigger_always_returns_success` on a record whose
processing fails entirely. -/
theorem trigger_returns_success_witness :
    (trigger_lambda_handler (Option.some "out") (Option.some "arn")
      [(trigRecord0, trigFailWorld)] "t").1 = ⟨200, "success"⟩ :=
  trigger_always_returns_success (Option.some "out") (Option.some "arn")
    [(trigRecord0, trigFailWorld)] "t" (by decide) (by decide)

/-- C5 (amended): in every status payload the planner builds,
`completed_files = total_files` holds exactly when the status is
`completed` or `total_files` is zero (the planner's failure records carry
`0 = 0` with status `error`); the same equivalence holds for every record
the aggregator derives from such a planner payload. -/
theorem completed_files_matches_total_iff (r : TriggerRecord) (w : RecordWorld)
    (now : String) (sd : StatusFileData) (hmem : sd ∈ process_record r w now) :
    (sd.completed_files = sd.total_files
      ↔ sd.status = "completed" ∨ sd.total_files = 0)
    ∧ ∀ (ev : CompletionEvent) (scan : ScanOracle) (t2 : String),
        ((statusUpdateData ev
            ⟨Option.some sd.total_files, Option.some sd.completed_files⟩ scan t2).completed_files
          = (statusUpdateData ev
            ⟨Option.some sd.total_files, Option.some sd.completed_files⟩ scan t2).total_files
        ↔ (statusUpdateData ev
            ⟨Option.some sd.total_files, Option.some sd.completed_files⟩ scan t2).status
              = "completed"
          ∨ (statusUpdateData ev
            ⟨Option.some sd.total_files, Option.some sd.completed_files⟩ scan t2).total_files
              = 0) := by
  have hne : ∀ (dp : List Char) (msg arn : Option String) (m t : String) (a b : Int),
      (create_status_file_data dp "error" m a b msg t).completed_files = b
      ∧ (create_status_file_data dp "error" m a b msg t).status ≠ "completed"
      ∧ (create_status_file_data dp "in_progress" m a b arn t).completed_files = b
      ∧ (create_status_file_data dp "in_progress" m a b arn t).status ≠ "completed" := by
    intro dp msg arn m t a b
    refine ⟨rfl, ?_, rfl, ?_⟩ <;> simp [create_status_file_data]
  have key : sd.completed_files = 0 ∧ sd.status ≠ "completed" := by
    cases hf : w.fetchConfig with
    | error e =>
      simp only [process_record, hf, List.mem_singleton] at hmem
      subst hmem
      exact ⟨(hne _ _ Option.none _ now 0 0).1, (hne _ _ Option.none _ now 0 0).2.1⟩
    | ok promptConfig =>
      cases hp : promptConfig.lookup "prompt" with
      | none =>
        simp only [process_record, hf, hp, List.mem_singleton] at hmem
        subst hmem
        exact ⟨(hne _ _ Option.none _ now 0 0).1, (hne _ _ Option.none _ now 0 0).2.1⟩
      | some p =>
        by_cases hfe : (list_files_in_directory w.listObjects).isEmpty = true
        · simp only [process_record, hf, hp, hfe, if_true, List.mem_singleton] at hmem
          subst hmem
          exact ⟨(hne _ Option.none Option.none _ now 0 0).1,
            (hne _ Option.none Option.none _ now 0 0).2.1⟩
        · cases hpb : w.putBatchOutcome with
          | error e =>
            simp only [process_record, hf, hp, hfe, if_false, Bool.false_eq_true,
              hpb, List.mem_singleton] at hmem
            subst hmem
            exact ⟨(hne _ _ Option.none _ now 0 0).1, (hne _ _ Option.none _ now 0 0).2.1⟩
          | ok u =>
            cases hse : w.startExecution with
            | error e =>
              simp only [process_record, hf, hp, hfe, if_false, Bool.false_eq_true,
                hpb, hse, List.mem_singleton] at hmem
              subst hmem
              exact ⟨(hne _ _ Option.none _ now 0 0).1, (hne _ _ Option.none _ now 0 0).2.1⟩
            | ok arn =>
              simp only [process_record, hf, hp, hfe, if_false, Bool.false_eq_true,
                hpb, hse, List.mem_singleton] at hmem
              subst hmem
              exact ⟨(hne _ Option.none (Option.some arn) _ now _ 0).2.2.1,
                (hne _ Option.none (Option.some arn) _ now _ 0).2.2.2⟩
  refine ⟨?_, ?_⟩
  · rw [key.1]
    constructor
    · intro h0
      exact Or.inr h0.symm
    · intro h0
      rcases h0 with h0 | h0
      · exact absurd h0 key.2
      · exact h0.symm
  · intro ev scan t2
    by_cases hc : ev.status = "completed"
    · simp [statusUpdateData, hc]
    · simp only [statusUpdateData, hc, if_false, Option.getD_some, eq_self_iff_true]
      simp [key.1]
      exact eq_comm

/-- A record world for a directory holding no processable files. -/
def trigEmptyDirWorld : RecordWorld :=
  ⟨.ok [("prompt", "Transcribe exactly")], .ok (Option.some []), .ok (), .ok "arn:exec"⟩

/-- The error payload the planner writes for an empty directory. -/
def sdEmptyDir : StatusFileData :=
  create_status_file_data (dirPathOf "d/_prompt.json".data) "error"
    "No processable files found" 0 0 Option.none "t0"

/-- Witness for `completed_files_matches_total_iff` at the planner's
empty-directory payload. -/
theorem completed_files_matches_total_witness :
    sdEmptyDir.completed_files = sdEmptyDir.total_files
      ↔ sdEmptyDir.status = "completed" ∨ sdEmptyDir.total_files = 0 :=
  (completed_files_matches_total_iff trigRecord0 trigEmptyDirWorld "t0" sdEmptyDir
    (by decide)).1

/-- Counterexample to C5 as stated: an empty directory makes the planner
write a record with `completed_files = total_files = 0` whose status is
`error`, so the equality does not hold only under status `completed`. -/
theorem error_status_equal_counts_example :
    (process_record trigRecord0 trigEmptyDirWorld "t0").map
      (fun sd => (sd.status, sd.total_files, sd.completed_files)) = [("error", 0, 0)]
    ∧ ("error" : String) ≠ "completed" := by
  decide

/-!
## Per-File Processor (src/worker/handler.py)
-/

/-- JSON-like Python values exchanged with the model: the tool input dict,
its fields, and artifact bodies. -/
inductive PyVal where
  | str (s : String)
  | int (n : Int)
  | list (l : List PyVal)
  | dict (d : List (String × PyVal))
  | null
  | bool (b : Bool)

/-- One tool-use block of a Converse response: the tool name and its
`input`, absent when the model supplied none (`tool_use.get("input", {})`
then defaults to an empty dict). -/
structure ToolUse where
  name : String
  input : Option PyVal

/-- The parts of a Converse API response the worker reads: the stop reason,
the message content blocks (`Option.none` models a response missing the
`output`/`message`/`content` path, whose `KeyError` the worker converts to
`ValueError`; a block is `Option.none` when it carries no `toolUse`), and
the token usage with each counter optional
(`response.get("usage", {})`, src/worker/handler.py lines 277-280). -/
structure ConverseResponse where
  stopReason : Option String
  content : Option (List (Option ToolUse))
  usageInputTokens : Option Int
  usageOutputTokens : Option Int

/-- The compensation inside `extract_tool_response`, src/worker/handler.py
lines 165-167: a dict input holding `transcribed_text` but no
`detected_languages` gets `detected_languages = ["en"]` inserted. -/
def patchLanguages (v : PyVal) : PyVal :=
  match v with
  | .dict d =>
    if (d.lookup "transcribed_text").isSome ∧ (d.lookup "detected_languages").isNone then
      .dict (d ++ [("detected_languages", .list [.str "en"])])
    else .dict d
  | v => v

/-- The block scan of `extract_tool_response`, src/worker/handler.py
lines 160-175: blocks without `toolUse` are skipped; the first tool-use
block either returns its (patched) input or raises on a name mismatch; no
tool-use block at all raises. -/
def findToolUse (expected : String) : List (Option ToolUse) → Except PyExc PyVal
  | [] => .error (.valueError "No toolUse block found in response content")
  | Option.none :: rest => findToolUse expected rest
  | Option.some tu :: _ =>
    if tu.name = expected then
      .ok (patchLanguages (tu.input.getD (.dict [])))
    else
      .error (.valueError ("Expected tool " ++ expected ++ ", got " ++ tu.name))

/-- Model of `extract_tool_response`, src/worker/handler.py lines 143-175. -/
def extract_tool_response (response : ConverseResponse) (expected : String) :
    Except PyExc PyVal :=
  if response.stopReason ≠ Option.some "tool_use" then
    .error (.valueError "Expected stopReason tool_use")
  else
    match response.content with
    | Option.none => .error (.valueError "Malformed response structure")
    | Option.some blocks => findToolUse expected blocks

/-- Model of `validate_transcription_data`, src/worker/handler.py
lines 177-204: the data must be a dict with a `transcribed_text` field and
a `detected_languages` field holding a list. -/
def validate_transcription_data (data : PyVal) : Except PyExc Bool :=
  match data with
  | .dict d =>
    match d.lookup "transcribed_text" with
    | Option.none => .error (.valueError "Missing required field: transcribed_text")
    | Option.some _ =>
      match d.lookup "detected_languages" with
      | Option.none => .error (.valueError "Missing required field: detected_languages")
      | Option.some (.list _) => .ok true
      | Option.some _ => .error (.valueError "detected_languages must be array")
  | _ => .error (.valueError "Expected dict")

/-- Model of Python `str.split(sep)` for a single-character separator. -/
def splitOnChar (sep : Char) : List Char → List (List Char)
  | [] => [[]]
  | c :: rest =>
    match splitOnChar sep rest with
    | [] => [[c]]
    | h :: t => if c = sep then [] :: h :: t else (c :: h) :: t

/-- Model of `get_image_format`, src/worker/handler.py lines 52-66:
`filename.lower().split(".")[-1]` is `pdf` for PDFs; everything else is
treated as PNG. -/
def get_image_format (filename : String) : String :=
  if (splitOnChar '.' (filename.data.map Char.toLower)).getLastD [] = "pdf".data then
    "pdf"
  else "png"

/-- The work record consumed by the worker, src/worker/handler.py
lines 213-217; `max_tokens` defaults when absent. -/
structure WorkRecord where
  recordId : String
  file_key : String
  bucket : String
  prompt : String
  max_tokens : Option Int

/-- A well-formed worker invocation event, src/worker/handler.py
lines 210-211. -/
structure WorkerEvent where
  record : WorkRecord
  output_bucket : String

/-- Outcomes of the worker's external calls: the S3 object fetch, the
Pillow conversion of an image to PNG (an external library, abstracted to
its outcome), the Bedrock Converse call, and the two possible artifact
writes. -/
structure WorkerWorld where
  getObject : Except PyExc String
  convert : Except PyExc String
  converse : Except PyExc ConverseResponse
  putSuccessOutcome : Except PyExc Unit
  putErrorOutcome : Except PyExc Unit

/-- One artifact write: key, JSON body and string-valued metadata. -/
structure PutRecord where
  key : String
  body : PyVal
  metadata : List (String × String)

/-- The worker's return value, src/worker/handler.py lines 306-313 and
388-398. -/
structure WorkerResult where
  statusCode : Int
  recordId : String
  file_key : String
  output_key : String
  status : String
  error_code : Option String
  error_message : Option String

/-- Model of `write_error_file`, src/worker/handler.py lines 354-386: the
error artifact at `{file_key}.json` with zeroed usage metadata; a failing
write is swallowed, leaving no artifact but still returning the key. -/
def write_error_file (putOutcome : Except PyExc Unit)
    (file_key record_id error_code error_message now : String) :
    List PutRecord × String :=
  let output_key := file_key ++ ".json"
  let body : PyVal := .dict [("status", .str "error"), ("error_code", .str error_code),
    ("error_message", .str error_message), ("file_key", .str file_key),
    ("record_id", .str record_id), ("timestamp", .str now)]
  let metadata := [("record-id", record_id), ("processing-status", "error"),
    ("error-code", error_code), ("input-tokens", "0"), ("output-tokens", "0"),
    ("total-tokens", "0")]
  match putOutcome with
  | .ok _ => ([{ key := output_key, body := body, metadata := metadata }], output_key)
  | .error _ => ([], output_key)

/-- Model of `create_error_response`, src/worker/handler.py lines 388-398. -/
def create_error_response (record_id file_key output_key error_code error_message : String) :
    WorkerResult :=
  { statusCode := 500, recordId := record_id, file_key := file_key,
    output_key := output_key, status := "error",
    error_code := Option.some error_code, error_message := Option.some error_message }

/-- The body of the worker's `try` block, src/worker/handler.py
lines 209-313: fetch the file, convert it unless it is a PDF, call the
model, read the usage counters, extract and validate the tool response,
and write the success artifact. The prompt, `max_tokens` and media payload
are consumed by the Converse call, whose outcome the world supplies. -/
def worker_try (ev : WorkerEvent) (w : WorkerWorld) :
    Except PyExc (List PutRecord × WorkerResult) :=
  let record := ev.record
  let file_key := record.file_key
  let record_id := record.recordId
  match w.getObject with
  | .error e => .error e
  | .ok fileData =>
    let file_format := get_image_format file_key
    let mediaReady : Except PyExc String :=
      if file_format = "pdf" then .ok fileData else w.convert
    match mediaReady with
    | .error e => .error e
    | .ok _ =>
      match w.converse with
      | .error e => .error e
      | .ok response =>
        let input_tokens := response.usageInputTokens.getD 0
        let output_tokens := response.usageOutputTokens.getD 0
        match extract_tool_response response "provide_exact_transcription" with
        | .error e => .error e
        | .ok transcription_data =>
          match validate_transcription_data transcription_data with
          | .error e => .error e
          | .ok _ =>
            let output_key := file_key ++ ".json"
            match w.putSuccessOutcome with
            | .error e => .error e
            | .ok _ =>
              .ok ([{ key := output_key, body := transcription_data,
                      metadata := [("record-id", record_id),
                        ("processing-status", "success"),
                        ("input-tokens", toString input_tokens),
                        ("output-tokens", toString output_tokens),
                        ("total-tokens", toString (input_tokens + output_tokens)),
                        ("tool-name", "provide_exact_transcription")] }],
                  { statusCode := 200, recordId := record_id, file_key := file_key,
                    output_key := output_key, status := "success",
                    error_code := Option.none, error_message := Option.none })

/-- The worker entry point, src/worker/handler.py lines 206-352: the `try`
body with its three `except` arms, each writing a best-effort error
artifact and returning a terminal error result. With a well-formed event
the handler never re-raises. -/
def worker_lambda_handler (ev : WorkerEvent) (w : WorkerWorld) (now : String) :
    List PutRecord × WorkerResult :=
  match worker_try ev w with
  | .ok r => r
  | .error (.valueError msg) =>
    let wr := write_error_file w.putErrorOutcome ev.record.file_key ev.record.recordId
      "ToolResponseValidationError" msg now
    (wr.1, create_error_response ev.record.recordId ev.record.file_key wr.2
      "ToolResponseValidationError" msg)
  | .error (.clientError code msg) =>
    let wr := write_error_file w.putErrorOutcome ev.record.file_key ev.record.recordId
      code msg now
    (wr.1, create_error_response ev.record.recordId ev.record.file_key wr.2 code msg)
  | .error (.other msg) =>
    let wr := write_error_file w.putErrorOutcome ev.record.file_key ev.record.recordId
      "UnexpectedError" msg now
    (wr.1, create_error_response ev.record.recordId ev.record.file_key wr.2
      "UnexpectedError" msg)

/-!
## Claims about the Per-File Processor
-/

/-- Association-list lookup across an append: the left list wins, the right
list is consulted only when the key is absent on the left. -/
theorem lookup_append {α β : Type} [BEq α] (l1 l2 : List (α × β)) (k : α) :
    (l1 ++ l2).lookup k
      = (match l1.lookup k with
          | Option.some v => Option.some v
          | Option.none => l2.lookup k) := by
  induction l1 with
  | nil => rfl
  | cons p t ih =>
    obtain ⟨a, b⟩ := p
    simp only [List.cons_append, List.lookup]
    cases hbeq : k == a <;> simp [hbeq, ih]

/-- A successful run of the worker body writes exactly the success artifact
at `{file_key}.json` and reports success. -/
theorem worker_try_ok_shape (ev : WorkerEvent) (w : WorkerWorld)
    (r : List PutRecord × WorkerResult) (h : worker_try ev w = .ok r) :
    r.1.map PutRecord.key = [ev.record.file_key ++ ".json"]
    ∧ r.2.status = "success" := by
  unfold worker_try at h
  by_cases hfmt : get_image_format ev.record.file_key = "pdf" <;>
    simp only [hfmt, if_true, if_false, ite_true, ite_false] at h <;>
    repeat' split at h
  all_goals first
    | exact Except.noConfusion h
    | (cases h; exact ⟨rfl, rfl⟩)

/-- C4: on a well-formed work record, the worker handler returns a terminal
success or error result (no exception escapes its boundary), and provided
the store accepts the error-path write, exactly one artifact is written, at
`{file_key}.json`, whatever the outcome. -/
theorem worker_single_artifact_and_terminal (ev : WorkerEvent) (w : WorkerWorld)
    (now : String) (hput : w.putErrorOutcome = .ok ()) :
    (worker_lambda_handler ev w now).1.map PutRecord.key
      = [ev.record.file_key ++ ".json"]
    ∧ ((worker_lambda_handler ev w now).2.status = "success"
      ∨ (worker_lambda_handler ev w now).2.status = "error") := by
  cases h : worker_try ev w with
  | ok r =>
    have hs := worker_try_ok_shape ev w r h
    constructor
    · simpa [worker_lambda_handler, h] using hs.1
    · exact Or.inl (by simpa [worker_lambda_handler, h] using hs.2)
  | error e =>
    cases e <;>
      refine ⟨?_, Or.inr ?_⟩ <;>
        simp [worker_lambda_handler, h, write_error_file, hput, create_error_response]

/-- A Converse response whose tool input satisfies the full contract. -/
def okResponse : ConverseResponse :=
  ⟨Option.some "tool_use",
   Option.some [Option.some ⟨"provide_exact_transcription",
     Option.some (.dict [("transcribed_text", .str "hello"),
       ("detected_languages", .list [.str "en"])])⟩],
   Option.some 10, Option.some 5⟩

/-- A well-formed worker invocation for the file `d/a.png`. -/
def workerEvent0 : WorkerEvent :=
  ⟨⟨"d-a-png", "d/a.png", "input-bucket", "Transcribe exactly", Option.none⟩, "out"⟩

/-- A worker world whose every external call succeeds. -/
def workerWorldOk : WorkerWorld :=
  ⟨.ok "bytes", .ok "png-bytes", .ok okResponse, .ok (), .ok ()⟩

/-- Witness for `worker_single_artifact_and_terminal` on an all-successful
invocation. -/
theorem worker_single_artifact_witness :
    (worker_lambda_handler workerEvent0 workerWorldOk "t").1.map PutRecord.key
      = [workerEvent0.record.file_key ++ ".json"]
    ∧ ((worker_lambda_handler workerEvent0 workerWorldOk "t").2.status = "success"
      ∨ (worker_lambda_handler workerEvent0 workerWorldOk "t").2.status = "error") :=
  worker_single_artifact_and_terminal workerEvent0 workerWorldOk "t" rfl

/-- C3 (amended): when the tool response is missing the transcribed-text
field the worker yields an error outcome, writing the artifact with
`processing-status=error`, the `ToolResponseValidationError` code and zeroed
usage metadata; but when only the detected-languages field is missing the
worker defaults it to `["en"]` and yields a success outcome. -/
theorem worker_required_fields_outcome (ev : WorkerEvent) (w : WorkerWorld)
    (now : String) (fd cv : String) (resp : ConverseResponse)
    (d : List (String × PyVal))
    (h1 : w.getObject = .ok fd) (h2 : w.convert = .ok cv)
    (h3 : w.converse = .ok resp)
    (h4 : resp.stopReason = Option.some "tool_use")
    (h5 : resp.content = Option.some [Option.some
      ⟨"provide_exact_transcription", Option.some (.dict d)⟩])
    (h6 : w.putSuccessOutcome = .ok ()) (h7 : w.putErrorOutcome = .ok ()) :
    (d.lookup "transcribed_text" = Option.none →
      (worker_lambda_handler ev w now).2.status = "error"
      ∧ (worker_lambda_handler ev w now).2.error_code
          = Option.some "ToolResponseValidationError"
      ∧ (worker_lambda_handler ev w now).1.map PutRecord.metadata
          = [[("record-id", ev.record.recordId), ("processing-status", "error"),
              ("error-code", "ToolResponseValidationError"), ("input-tokens", "0"),
              ("output-tokens", "0"), ("total-tokens", "0")]])
    ∧ (∀ v, d.lookup "transcribed_text" = Option.some v →
        d.lookup "detected_languages" = Option.none →
        (worker_lambda_handler ev w now).2.status = "success"
        ∧ (worker_lambda_handler ev w now).1.map PutRecord.body
            = [.dict (d ++ [("detected_languages", PyVal.list [PyVal.str "en"])])]) := by
  have hm : (if get_image_format ev.record.file_key = "pdf" then
        (Except.ok fd : Except PyExc String) else w.convert)
      = .ok (if get_image_format ev.record.file_key = "pdf" then fd else cv) := by
    by_cases hfmt : get_image_format ev.record.file_key = "pdf" <;> simp [hfmt, h2]
  have hex : extract_tool_response resp "provide_exact_transcription"
      = .ok (patchLanguages (.dict d)) := by
    simp [extract_tool_response, h4, h5, findToolUse]
  constructor
  · intro hmt
    have hpatch : patchLanguages (.dict d) = .dict d := by
      simp [patchLanguages, hmt]
    have hval : validate_transcription_data (.dict d)
        = .error (.valueError "Missing required field: transcribed_text") := by
      simp [validate_transcription_data, hmt]
    have htry : worker_try ev w
        = .error (.valueError "Missing required field: transcribed_text") := by
      simp [worker_try, h1, hm, h3, hex, hpatch, hval]
    simp [worker_lambda_handler, htry, write_error_file, h7, create_error_response]
  · intro v hv hnl
    have hpatch : patchLanguages (.dict d)
        = .dict (d ++ [("detected_languages", PyVal.list [PyVal.str "en"])]) := by
      simp [patchLanguages, hv, hnl]
    have hval : validate_transcription_data
        (.dict (d ++ [("detected_languages", PyVal.list [PyVal.str "en"])])) = .ok true := by
      simp [validate_transcription_data, lookup_append, hv, hnl]
    simp [worker_lambda_handler, worker_try, h1, hm, h3, hex, hpatch, hval, h6]

/-- A tool input carrying only a detected-languages field. -/
def toolInputMissingText : List (String × PyVal) :=
  [("detected_languages", PyVal.list [])]

/-- A Converse response whose tool input is missing the transcribed-text
field. -/
def responseMissingText : ConverseResponse :=
  ⟨Option.some "tool_use",
   Option.some [Option.some ⟨"provide_exact_transcription",
     Option.some (.dict toolInputMissingText)⟩],
   Option.some 10, Option.some 5⟩

/-- A worker world returning the response without transcribed text. -/
def workerWorldMissingText : WorkerWorld :=
  ⟨.ok "bytes", .ok "png-bytes", .ok responseMissingText, .ok (), .ok ()⟩

/-- Witness for `worker_required_fields_outcome`: a missing transcribed-text
field yields the error artifact and terminal error result. -/
theorem worker_required_fields_witness :
    (worker_lambda_handler workerEvent0 workerWorldMissingText "t").2.status = "error"
    ∧ (worker_lambda_handler workerEvent0 workerWorldMissingText "t").2.error_code
        = Option.some "ToolResponseValidationError"
    ∧ (worker_lambda_handler workerEvent0 workerWorldMissingText "t").1.map PutRecord.metadata
        = [[("record-id", workerEvent0.record.recordId), ("processing-status", "error"),
            ("error-code", "ToolResponseValidationError"), ("input-tokens", "0"),
            ("output-tokens", "0"), ("total-tokens", "0")]] :=
  (worker_required_fields_outcome workerEvent0 workerWorldMissingText "t" "bytes"
    "png-bytes" responseMissingText toolInputMissingText rfl rfl rfl rfl rfl rfl rfl).1 rfl

/-- A tool input carrying only a transcribed-text field. -/
def toolInputNoLang : List (String × PyVal) :=
  [("transcribed_text", PyVal.str "hello")]

/-- A Converse response whose tool input is missing the detected-languages
field. -/
def responseNoLang : ConverseResponse :=
  ⟨Option.some "tool_use",
   Option.some [Option.some ⟨"provide_exact_transcription",
     Option.some (.dict toolInputNoLang)⟩],
   Option.some 10, Option.some 5⟩

/-- A worker world returning the response without detected languages. -/
def workerWorldNoLang : WorkerWorld :=
  ⟨.ok "bytes", .ok "png-bytes", .ok responseNoLang, .ok (), .ok ()⟩

/-- Counterexample to C3 as stated: a response missing the required
detected-languages field still yields a success outcome, with
`processing-status=success` and populated usage metadata, because the
worker silently defaults the field to `["en"]`. -/
theorem worker_missing_languages_success_example :
    (worker_lambda_handler workerEvent0 workerWorldNoLang "t").2.status = "success"
    ∧ (worker_lambda_handler workerEvent0 workerWorldNoLang "t").1.map PutRecord.metadata
        = [[("record-id", "d-a-png"), ("processing-status", "success"),
            ("input-tokens", "10"), ("output-tokens", "5"), ("total-tokens", "15"),
            ("tool-name", "provide_exact_transcription")]] := by
  constructor <;> rfl
